import Mathlib

/-!
Verification of the task-function library `tasksB.py`: a shallow embedding of
the PathGuard predicate `B12` and the task functions `B3`, `B5`, `B6`, `B7`,
`B9` and the HTTP endpoint `B10`, together with proofs of the specified
properties.  External capabilities (HTTP client, SQL engines, HTML parser,
image codec, Markdown renderer, CSV loader) are modelled as oracle
environments supplied to each task; the control flow, the guard, the engine
choice, the JSON shapes and the HTML shell are translated from the source.
-/

namespace TasksB

/-! ## Basic string helpers (explicit char-list implementations, so that the
kernel can evaluate them on concrete inputs) -/

/-- `s.startswith(p)` on strings, via char lists. -/
def strStartsWith (s p : String) : Bool := p.data.isPrefixOf s.data

/-- `s.endswith(p)` on strings, via char lists. -/
def strEndsWith (s p : String) : Bool := p.data.reverse.isPrefixOf s.data.reverse

/-- Python `pat in s` substring containment. -/
def strContains (s pat : String) : Bool :=
  s.data.tails.any (fun t => pat.data.isPrefixOf t)

/-- Split a char list on a separator character (like `str.split(sep)`). -/
def splitOnChar (c : Char) (l : List Char) : List (List Char) :=
  l.foldr
    (fun ch acc =>
      if ch = c then [] :: acc
      else
        match acc with
        | h :: t => (ch :: h) :: t
        | [] => [[ch]])
    [[]]

/-- Join path components with `/` separators. -/
def joinSlash : List String → String
  | [] => ""
  | [p] => p
  | p :: ps => p ++ "/" ++ joinSlash ps

/-- `os.path.basename`: the part after the last slash. -/
def basename (s : String) : String :=
  ((splitOnChar '/' s.data).map (fun cs => String.mk cs)).getLastD ""

/-- `os.path.dirname`: everything before the last slash, with trailing slashes
stripped unless the head is all slashes. -/
def dirname (p : String) : String :=
  let cs := p.data
  let headLen := cs.length - cs.reverse.findIdx (· = '/')
  let head := cs.take headLen
  if head ≠ [] ∧ ¬ head.all (· = '/') then
    String.mk ((head.reverse.dropWhile (· = '/')).reverse)
  else
    String.mk head

/-! ## `pathlib.PurePosixPath` model

`Path(s)` parses a root (`""`, `"/"` or `"//"`) and the non-empty, non-`"."`
components; `str(path)` re-joins them (or yields `"."` for an empty relative
path). -/

structure PyPath where
  root : String
  parts : List String
deriving DecidableEq, Repr

/-- The POSIX root of a path string: exactly two leading slashes are kept as
`"//"`, any other number of leading slashes collapses to `"/"`. -/
def parseRoot (s : String) : String :=
  match s.data with
  | '/' :: '/' :: '/' :: _ => "/"
  | '/' :: '/' :: _ => "//"
  | '/' :: _ => "/"
  | _ => ""

/-- `Path(s)`: parse a path string into root and components. -/
def mkPath (s : String) : PyPath :=
  { root := parseRoot s
    parts := ((splitOnChar '/' s.data).map (fun cs => String.mk cs)).filter
      (fun c => c != "" && c != ".") }

/-- `path.is_absolute()`. -/
def PyPath.isAbs (p : PyPath) : Bool := p.root != ""

/-- `str(path)`. -/
def pathStr (p : PyPath) : String :=
  if p.parts.isEmpty then (if p.root = "" then "." else p.root)
  else p.root ++ joinSlash p.parts

/-! ## The PathGuard predicate `B12` -/

/-- An argument passed to `B12`: either a valid path string, or a non-path
value (for which the `Path` constructor raises a `TypeError`). -/
inductive PyArg where
  | str (s : String)
  | nonPath (typeName : String)
deriving DecidableEq, Repr

/-- The `Path(filepath)` constructor: succeeds on strings, raises on
non-path values. -/
def pathCtor : PyArg → Except String PyPath
  | .str s => .ok (mkPath s)
  | .nonPath t =>
      .error ("argument should be a str or an os.PathLike object, not " ++ t)

/-- `B12` with its log output: the `try` block builds the `Path` and tests
absolute paths for the `/data` string prefix; any exception is caught,
logged, and turned into `False`. -/
def B12run (filepath : PyArg) : Bool × List String :=
  match pathCtor filepath with
  | .ok path =>
      (if path.isAbs then strStartsWith (pathStr path) "/data" else true, [])
  | .error e => (false, ["Security check failed: " ++ e])

/-- `B12(filepath)`: the boolean result of the security check. -/
def B12 (filepath : PyArg) : Bool := (B12run filepath).1

/-! ## Resolution (for stating the containment invariant)

`..` components are collapsed the way the OS resolves them (without
symlinks); `B12` itself never does this. -/

/-- Collapse `..` components left to right. -/
def resolveParts (parts : List String) : List String :=
  parts.foldl (fun acc c => if c = ".." then acc.dropLast else acc ++ [c]) []

/-- The resolved string form of a path (collapsing `..`, no symlinks). -/
def resolvedStr (s : String) : String :=
  let p := mkPath s
  let rp := resolveParts p.parts
  if rp.isEmpty then (if p.root = "" then "." else p.root)
  else p.root ++ joinSlash rp

/-- Whether a path string resolves to `/data` itself or strictly under it. -/
def underDataDir (s : String) : Bool :=
  (resolvedStr s == "/data") || strStartsWith (resolvedStr s) "/data/"

/-! ## Values, JSON and effects -/

/-- A scalar value held in a database row or CSV cell. -/
inductive Scalar where
  | null
  | boolV (b : Bool)
  | intV (n : Int)
  | strV (s : String)
deriving DecidableEq, Repr

/-- A JSON value, as produced by `json.dump`. -/
inductive JVal where
  | s (v : Scalar)
  | arr (elems : List JVal)
  | obj (fields : List (String × JVal))

/-- The keys of a JSON object (in order), if the value is an object. -/
def jsonObjKeys : JVal → Option (List String)
  | .obj l => some (l.map Prod.fst)
  | _ => none

/-- What a task writes into a file. -/
inductive FileContent where
  | text (s : String)
  | json (j : JVal)
  | bytes (b : String)

/-- The SQL engine chosen by `B5`. -/
inductive Engine where
  | sqlite
  | duckdb
deriving DecidableEq, Repr

/-- Observable side effects of a task invocation, in order. -/
inductive Effect where
  | httpGet (url : String)
  | dbConnect (engine : Engine) (db_path : String)
  | dbExecute (query : String)
  | makedirs (dir : String)
  | fsWrite (path : String) (content : FileContent)
  | fsRead (path : String)
  | csvRead (path : String)
  | mdRender (src : String)
  | imgOpen (path : String)
  | imgResize (w h : Nat) (filter : String)
  | imgSave (path : String) (format : Option String) (quality : Option Nat)

/-- The filesystem paths an effect reads a file from or writes a file to
(directory creation targets a parent directory and is not a file access). -/
def effectFilePaths : Effect → List String
  | .fsWrite p _ => [p]
  | .fsRead p => [p]
  | .csvRead p => [p]
  | .imgOpen p => [p]
  | .imgSave p _ _ => [p]
  | .dbConnect _ p => [p]
  | _ => []

/-- All file paths read or written along a trace. -/
def traceFilePaths (tr : List Effect) : List String :=
  (tr.map effectFilePaths).flatten

/-! ## `B3`: fetch an API response and save it -/

/-- An HTTP response: content type, `response.json()` outcome, raw bytes. -/
structure HttpResp where
  contentType : String
  jsonBody : Except String JVal
  content : String

/-- Oracle for `B3`'s external steps: `requests.get` (with
`raise_for_status` folded in), `os.makedirs`, and the file write. -/
structure B3Env where
  get : Except String HttpResp
  mkdirs : Except String Unit
  write : Except String Unit

def B3 (url save_path : String) (_headers : Option (List (String × String)))
    (env : B3Env) : Bool × List Effect :=
  if B12 (.str save_path) then
    match env.get with
    | .error _ => (false, [.httpGet url])
    | .ok resp =>
      match env.mkdirs with
      | .error _ => (false, [.httpGet url, .makedirs (dirname save_path)])
      | .ok _ =>
        if strContains resp.contentType "application/json" then
          match resp.jsonBody with
          | .error _ => (false, [.httpGet url, .makedirs (dirname save_path)])
          | .ok j =>
            match env.write with
            | .error _ => (false, [.httpGet url, .makedirs (dirname save_path)])
            | .ok _ =>
                (true, [.httpGet url, .makedirs (dirname save_path),
                  .fsWrite save_path (.json j)])
        else
          match env.write with
          | .error _ => (false, [.httpGet url, .makedirs (dirname save_path)])
          | .ok _ =>
              (true, [.httpGet url, .makedirs (dirname save_path),
                .fsWrite save_path (.bytes resp.content)])
  else (false, [])

/-! ## `B5`: run a SQL query and save the results -/

/-- `db_path.endswith('.db')` selects sqlite3, anything else duckdb. -/
def chooseEngine (db_path : String) : Engine :=
  if strEndsWith db_path ".db" then .sqlite else .duckdb

/-- The JSON document `B5` writes: keys `query`, `results`, `column_names`. -/
def b5Json (query : String) (results : List (List Scalar))
    (cols : List String) : JVal :=
  .obj [("query", .s (.strV query)),
        ("results", .arr (results.map (fun r => .arr (r.map .s)))),
        ("column_names", .arr (cols.map (fun c => .s (.strV c))))]

/-- Oracle for `B5`'s external steps: connect, execute-and-fetch (rows plus
`cursor.description` column names), `os.makedirs`, file write. -/
structure B5Env where
  connect : Except String Unit
  exec0 : Except String (List (List Scalar) × List String)
  mkdirs : Except String Unit
  write : Except String Unit

def B5 (db_path query output_filename : String) (env : B5Env) :
    Option (List (List Scalar)) × List Effect :=
  if B12 (.str db_path) && B12 (.str output_filename) then
    let engine := chooseEngine db_path
    match env.connect with
    | .error _ => (none, [.dbConnect engine db_path])
    | .ok _ =>
      match env.exec0 with
      | .error _ => (none, [.dbConnect engine db_path, .dbExecute query])
      | .ok (results, cols) =>
        match env.mkdirs with
        | .error _ =>
            (none, [.dbConnect engine db_path, .dbExecute query,
              .makedirs (dirname output_filename)])
        | .ok _ =>
          match env.write with
          | .error _ =>
              (none, [.dbConnect engine db_path, .dbExecute query,
                .makedirs (dirname output_filename)])
          | .ok _ =>
              (some results,
               [.dbConnect engine db_path, .dbExecute query,
                .makedirs (dirname output_filename),
                .fsWrite output_filename (.json (b5Json query results cols))])
  else (none, [])

/-! ## `B6`: scrape a website and save the content -/

/-- Oracle for `B6`: `requests.get` returning the page text, the
soup/selector step yielding `str(content)`, the timestamp, `os.makedirs`,
and the file write. -/
structure B6Env where
  get : Except String String
  selectRes : Except String String
  timestamp : String
  mkdirs : Except String Unit
  write : Except String Unit

def B6 (url output_filename : String) (_selector : Option String)
    (env : B6Env) : Bool × List Effect :=
  if B12 (.str output_filename) then
    match env.get with
    | .error _ => (false, [.httpGet url])
    | .ok _ =>
      match env.selectRes with
      | .error _ => (false, [.httpGet url])
      | .ok content =>
        match env.mkdirs with
        | .error _ => (false, [.httpGet url, .makedirs (dirname output_filename)])
        | .ok _ =>
          match env.write with
          | .error _ => (false, [.httpGet url, .makedirs (dirname output_filename)])
          | .ok _ =>
              (true, [.httpGet url, .makedirs (dirname output_filename),
                .fsWrite output_filename (.json (.obj
                  [("url", .s (.strV url)),
                   ("timestamp", .s (.strV env.timestamp)),
                   ("content", .s (.strV content))]))])
  else (false, [])

/-! ## `B7`: transform an image

Line 6 of the source comments out `from PIL import Image` and nothing else
binds the name `Image`.  So whenever both guards pass, evaluating
`Image.open` inside the `try` block raises `NameError` before any library
call is made; the broad `except` catches it and `B7` returns `False`,
having invoked no delegate and written nothing.  The image-processing body
(lines 180–189) is translated below as the dead `.ok` branch of that
lookup. -/

/-- A PIL image handle; only the `format` attribute is inspected by `B7`. -/
structure Img where
  fmt : Option String

/-- Oracle for `B7`'s steps after the decode: `img.resize` (the value the
resize call returns, when one is made), `os.makedirs`, and `img.save`. -/
structure B7Env where
  resizeRes : Except String Img
  mkdirs : Except String Unit
  save : Except String Unit

/-- `Image.open(image_path)` as the source behaves: the PIL import is
commented out (line 6), so looking up the unbound name `Image` raises
`NameError` on every call, before any decode can start. -/
def imageOpenRes : Except String Img :=
  .error "NameError: name Image is not defined"

/-- The keyword arguments for `img.save`: `quality` is passed exactly when
`'JPEG' in (format, img.format)`. -/
def jpegKwargs (format : Option String) (imgFmt : Option String)
    (quality : Nat) : Option Nat :=
  if format == some "JPEG" || imgFmt == some "JPEG" then some quality else none

def B7 (image_path output_path : String) (resize : Option (Nat × Nat))
    (format : Option String) (quality : Nat) (env : B7Env) :
    Bool × List Effect :=
  if B12 (.str image_path) && B12 (.str output_path) then
    match imageOpenRes with
    | .error _ => (false, [])
    | .ok img =>
      match resize with
      | some wh =>
        match env.resizeRes with
        | .error _ =>
            (false, [.imgOpen image_path, .imgResize wh.1 wh.2 "LANCZOS"])
        | .ok img2 =>
          match env.mkdirs with
          | .error _ =>
              (false, [.imgOpen image_path, .imgResize wh.1 wh.2 "LANCZOS",
                .makedirs (dirname output_path)])
          | .ok _ =>
            match env.save with
            | .error _ =>
                (false, [.imgOpen image_path, .imgResize wh.1 wh.2 "LANCZOS",
                  .makedirs (dirname output_path)])
            | .ok _ =>
                (true, [.imgOpen image_path, .imgResize wh.1 wh.2 "LANCZOS",
                  .makedirs (dirname output_path),
                  .imgSave output_path format (jpegKwargs format img2.fmt quality)])
      | none =>
        match env.mkdirs with
        | .error _ =>
            (false, [.imgOpen image_path, .makedirs (dirname output_path)])
        | .ok _ =>
          match env.save with
          | .error _ =>
              (false, [.imgOpen image_path, .makedirs (dirname output_path)])
          | .ok _ =>
              (true, [.imgOpen image_path, .makedirs (dirname output_path),
                .imgSave output_path format (jpegKwargs format img.fmt quality)])
  else (false, [])

/-! ## `B9`: convert Markdown to HTML -/

/-- The pieces of the fixed f-string document shell in `B9`. -/
def htmlPre : String :=
  "\n        <!DOCTYPE html>\n        <html>\n        <head>\n            <meta charset=\"utf-8\">\n            <meta name=\"viewport\" content=\"width=device-width, initial-scale=1\">\n            "

def titleOpen : String := "<title>Converted from "

def titleClose : String := "</title>"

def htmlMid : String := "\n        </head>\n        <body>\n            "

def htmlPost : String := "\n        </body>\n        </html>\n        "

/-- The full HTML document `B9` writes: the shell around the rendered body,
with the title derived from the markdown file's basename. -/
def fullHtml (bn html : String) : String :=
  htmlPre ++ titleOpen ++ bn ++ titleClose ++ htmlMid ++ html ++ htmlPost

/-- Oracle for `B9`: the file read, `markdown.markdown` (a function of the
extension list and the source text), `os.makedirs`, and the file write. -/
structure B9Env where
  readRes : Except String String
  render : List String → String → Except String String
  mkdirs : Except String Unit
  write : Except String Unit

def B9 (md_path output_path : String) (extras : Option (List String))
    (env : B9Env) : Bool × List Effect :=
  if B12 (.str md_path) && B12 (.str output_path) then
    match env.readRes with
    | .error _ => (false, [.fsRead md_path])
    | .ok md =>
      match env.render (extras.getD []) md with
      | .error _ => (false, [.fsRead md_path, .mdRender md])
      | .ok html =>
        match env.mkdirs with
        | .error _ =>
            (false, [.fsRead md_path, .mdRender md, .makedirs (dirname output_path)])
        | .ok _ =>
          match env.write with
          | .error _ =>
              (false, [.fsRead md_path, .mdRender md, .makedirs (dirname output_path)])
          | .ok _ =>
              (true, [.fsRead md_path, .mdRender md, .makedirs (dirname output_path),
                .fsWrite output_path (.text (fullHtml (basename md_path) html))])
  else (false, [])

/-! ## `B10`: the `POST /filter_csv` endpoint -/

/-- The JSON request body of `POST /filter_csv`. -/
structure FilterRequest where
  csv_path : String
  filter_column : String
  filter_value : Scalar

/-- A loaded CSV data frame: header names and rectangular rows. -/
structure Csv where
  header : List String
  rows : List (List Scalar)

/-- Oracle for `B10`: `pd.read_csv`. -/
structure B10Env where
  readCsv : Except String Csv

/-- The endpoint's outcome: a 200 response carrying the list of row records
(each a list of column-name/value pairs, in column order), or an HTTP error
status with a detail string. -/
inductive B10Result where
  | ok (records : List (List (String × Scalar)))
  | httpError (status : Nat) (detail : String)

/-- The value of column `c` in a row, given the header. -/
def rowVal (header : List String) (c : String) (row : List Scalar) : Scalar :=
  row.getD (header.indexOf c) .null

/-- The row predicate `df[filter_column] == filter_value`. -/
def matchesFilter (header : List String) (c : String) (v : Scalar)
    (row : List Scalar) : Bool :=
  rowVal header c row == v

/-- The 403 detail string in the source. -/
def accessDeniedMsg : String := "Access denied: Path must be within /data directory"

/-- `str(KeyError(c))`: the column name in single quotes. -/
def keyErrorDetail (c : String) : String :=
  String.singleton (Char.ofNat 39) ++ c ++ String.singleton (Char.ofNat 39)

def B10 (req : FilterRequest) (env : B10Env) : B10Result × List Effect :=
  if B12 (.str req.csv_path) then
    match env.readCsv with
    | .error e => (.httpError 400 e, [.csvRead req.csv_path])
    | .ok df =>
      if df.header.contains req.filter_column then
        (.ok (((df.rows.filter
            (matchesFilter df.header req.filter_column req.filter_value)).map
              (fun r => df.header.zip r))),
         [.csvRead req.csv_path])
      else
        (.httpError 400 (keyErrorDetail req.filter_column), [.csvRead req.csv_path])
  else (.httpError 403 accessDeniedMsg, [])

/-- The HTTP status of a `B10` outcome (200 on success). -/
def b10Status : B10Result → Nat
  | .ok _ => 200
  | .httpError st _ => st

/-! ## Concrete oracles used in witnesses and counterexamples -/

/-- A `B3` oracle whose fetch and write both succeed with a non-JSON body. -/
def plainFetchEnv : B3Env :=
  { get := .ok { contentType := "text/plain",
                 jsonBody := .error "not json", content := "payload" }
    mkdirs := .ok ()
    write := .ok () }

/-- A `B5` oracle for the `SELECT 1 AS x` scenario: one row `[1]`, one
column named `x`. -/
def queryEnv : B5Env :=
  { connect := .ok ()
    exec0 := .ok ([[.intV 1]], ["x"])
    mkdirs := .ok ()
    write := .ok () }

/-- A `B5` oracle whose query succeeds with zero rows. -/
def emptyQueryEnv : B5Env :=
  { connect := .ok ()
    exec0 := .ok ([], ["x"])
    mkdirs := .ok ()
    write := .ok () }

/-- A `B10` oracle loading a two-row CSV with a `status` column. -/
def statusCsvEnv : B10Env :=
  { readCsv := .ok
      { header := ["id", "status"]
        rows := [[.intV 1, .strV "active"],
                 [.intV 2, .strV "inactive"],
                 [.intV 3, .strV "active"]] } }

/-- A `B9` oracle reading `# Title` and rendering it to `<h1>Title</h1>`. -/
def titleMdEnv : B9Env :=
  { readRes := .ok "# Title"
    render := fun _ md => if md == "# Title" then .ok "<h1>Title</h1>" else .ok ""
    mkdirs := .ok ()
    write := .ok () }

/-- A `B7` oracle whose resize and save steps would succeed (they are never
reached, since the decode raises). -/
def pngImgEnv : B7Env :=
  { resizeRes := .ok { fmt := none }
    mkdirs := .ok ()
    save := .ok () }

/-- Whether any of `B5`'s delegate or I/O steps raises. -/
def b5EnvFails (env : B5Env) : Bool :=
  !env.connect.isOk || !env.exec0.isOk || !env.mkdirs.isOk || !env.write.isOk

/-! ## Helper lemmas -/

/-- Characterization of a passing guard on a string argument: the path is
relative, or its string form carries the `/data` prefix. -/
theorem B12_str_true_iff (p : String) :
    B12 (.str p) = true ↔
      ((mkPath p).isAbs = false ∨
        strStartsWith (pathStr (mkPath p)) "/data" = true) := by
  by_cases h : (mkPath p).isAbs <;>
    simp [B12, B12run, pathCtor, h]

/-- Every file path `B3` reads or writes passed the guard. -/
theorem B3_file_paths_guarded (url sp : String)
    (hd : Option (List (String × String))) (env : B3Env) :
    ∀ p ∈ traceFilePaths (B3 url sp hd env).2, B12 (.str p) = true := by
  intro p hp
  unfold B3 at hp
  repeat' split at hp
  all_goals simp_all [traceFilePaths, effectFilePaths]

/-- Every file path `B5` reads or writes passed the guard. -/
theorem B5_file_paths_guarded (db q outq : String) (env : B5Env) :
    ∀ p ∈ traceFilePaths (B5 db q outq env).2, B12 (.str p) = true := by
  intro p hp
  unfold B5 at hp
  repeat' split at hp
  all_goals simp_all [traceFilePaths, effectFilePaths]
  all_goals cases hp <;> simp_all

/-- Every file path `B6` reads or writes passed the guard. -/
theorem B6_file_paths_guarded (url out6 : String) (sel : Option String)
    (env : B6Env) :
    ∀ p ∈ traceFilePaths (B6 url out6 sel env).2, B12 (.str p) = true := by
  intro p hp
  unfold B6 at hp
  repeat' split at hp
  all_goals simp_all [traceFilePaths, effectFilePaths]

/-- Every file path `B7` reads or writes passed the guard. -/
theorem B7_file_paths_guarded (imgp outp : String) (rs : Option (Nat × Nat))
    (fmt : Option String) (qual : Nat) (env : B7Env) :
    ∀ p ∈ traceFilePaths (B7 imgp outp rs fmt qual env).2,
      B12 (.str p) = true := by
  intro p hp
  unfold B7 at hp
  repeat' split at hp
  all_goals simp_all [traceFilePaths, effectFilePaths]
  all_goals cases hp <;> simp_all

/-- Every file path `B9` reads or writes passed the guard. -/
theorem B9_file_paths_guarded (mdp outm : String) (ex : Option (List String))
    (env : B9Env) :
    ∀ p ∈ traceFilePaths (B9 mdp outm ex env).2, B12 (.str p) = true := by
  intro p hp
  unfold B9 at hp
  repeat' split at hp
  all_goals simp_all [traceFilePaths, effectFilePaths]
  all_goals cases hp <;> simp_all

/-- Every file path `B10` reads passed the guard. -/
theorem B10_file_paths_guarded (req : FilterRequest) (env : B10Env) :
    ∀ p ∈ traceFilePaths (B10 req env).2, B12 (.str p) = true := by
  intro p hp
  unfold B10 at hp
  repeat' split at hp
  all_goals simp_all [traceFilePaths, effectFilePaths]

/-! ## Claim C1 -/

/-- C1: for every absolute path, `B12` returns true iff the string form of
the path starts with the configured `/data` prefix; for every relative path,
`B12` returns true unconditionally. -/
theorem c1_guard_prefix_rule (s : String) :
    ((mkPath s).isAbs = true →
      (B12 (.str s) = true ↔
        strStartsWith (pathStr (mkPath s)) "/data" = true)) ∧
    ((mkPath s).isAbs = false → B12 (.str s) = true) := by
  constructor <;> intro h <;> simp [B12, B12run, pathCtor, h]

/-- C1 witness: the rule evaluated on a concrete absolute path and a
concrete relative path. -/
theorem c1_guard_prefix_rule_witness :
    (B12 (.str "/data/report.txt") = true ↔
      strStartsWith (pathStr (mkPath "/data/report.txt")) "/data" = true) ∧
    B12 (.str "logs/app.log") = true :=
  ⟨(c1_guard_prefix_rule "/data/report.txt").1 (by decide),
   (c1_guard_prefix_rule "logs/app.log").2 (by decide)⟩

/-! ## Claim C4 -/

/-- C4: when normalization of the argument raises, `B12` catches the
exception, logs it, and returns false — no error propagates. -/
theorem c4_guard_catches_exceptions (fp : PyArg) (e : String)
    (h : pathCtor fp = .error e) :
    B12run fp = (false, ["Security check failed: " ++ e]) ∧
    B12 fp = false := by
  simp [B12run, B12, h]

/-- C4 witness: a non-path argument (Python `None`) makes the `Path`
constructor raise, and `B12` returns false. -/
theorem c4_guard_catches_exceptions_witness :
    B12 (.nonPath "NoneType") = false :=
  (c4_guard_catches_exceptions (.nonPath "NoneType") _ rfl).2

/-! ## Claim C2 -/

/-- C2 counterexample: `/database/out.txt` is an absolute path that does not
resolve at or under the `/data` directory, yet it passes `B12` (the guard
compares string prefixes only), and `B3` accepts it and writes to it. -/
theorem c2_counterexample :
    B12 (.str "/database/out.txt") = true ∧
    (mkPath "/database/out.txt").isAbs = true ∧
    underDataDir "/database/out.txt" = false ∧
    (B3 "http://api.example.com" "/database/out.txt" none plainFetchEnv).2 =
      [.httpGet "http://api.example.com", .makedirs "/database",
       .fsWrite "/database/out.txt" (.bytes "payload")] :=
  ⟨by decide, by decide, by decide, rfl⟩

/-- C2 (amended): every file path that any task reads from or writes to is
either a relative path or an absolute path whose string form starts with the
literal prefix `/data` — string-prefix containment, not directory
containment, since paths such as `/database/out.txt` also pass the guard. -/
theorem c2_task_paths_pass_guard
    (url sp db q outq out6 imgp outp mdp outm : String)
    (hd : Option (List (String × String))) (sel : Option String)
    (rs : Option (Nat × Nat)) (fmt : Option String) (qual : Nat)
    (ex : Option (List String)) (req : FilterRequest)
    (e3 : B3Env) (e5 : B5Env) (e6 : B6Env) (e7 : B7Env) (e9 : B9Env)
    (e10 : B10Env) :
    (∀ p ∈ traceFilePaths (B3 url sp hd e3).2,
      (mkPath p).isAbs = false ∨
        strStartsWith (pathStr (mkPath p)) "/data" = true) ∧
    (∀ p ∈ traceFilePaths (B5 db q outq e5).2,
      (mkPath p).isAbs = false ∨
        strStartsWith (pathStr (mkPath p)) "/data" = true) ∧
    (∀ p ∈ traceFilePaths (B6 url out6 sel e6).2,
      (mkPath p).isAbs = false ∨
        strStartsWith (pathStr (mkPath p)) "/data" = true) ∧
    (∀ p ∈ traceFilePaths (B7 imgp outp rs fmt qual e7).2,
      (mkPath p).isAbs = false ∨
        strStartsWith (pathStr (mkPath p)) "/data" = true) ∧
    (∀ p ∈ traceFilePaths (B9 mdp outm ex e9).2,
      (mkPath p).isAbs = false ∨
        strStartsWith (pathStr (mkPath p)) "/data" = true) ∧
    (∀ p ∈ traceFilePaths (B10 req e10).2,
      (mkPath p).isAbs = false ∨
        strStartsWith (pathStr (mkPath p)) "/data" = true) := by
  refine ⟨?_, ?_, ?_, ?_, ?_, ?_⟩ <;> intro p hp
  · exact (B12_str_true_iff p).mp (B3_file_paths_guarded url sp hd e3 p hp)
  · exact (B12_str_true_iff p).mp (B5_file_paths_guarded db q outq e5 p hp)
  · exact (B12_str_true_iff p).mp (B6_file_paths_guarded url out6 sel e6 p hp)
  · exact (B12_str_true_iff p).mp
      (B7_file_paths_guarded imgp outp rs fmt qual e7 p hp)
  · exact (B12_str_true_iff p).mp (B9_file_paths_guarded mdp outm ex e9 p hp)
  · exact (B12_str_true_iff p).mp (B10_file_paths_guarded req e10 p hp)

/-- C2 (amended) witness: the path `B3` writes on a successful run with
output `/data/out.bin` carries the `/data` prefix. -/
theorem c2_task_paths_pass_guard_witness :
    (mkPath "/data/out.bin").isAbs = false ∨
      strStartsWith (pathStr (mkPath "/data/out.bin")) "/data" = true :=
  (c2_task_paths_pass_guard
      "http://api.example.com" "/data/out.bin" "/data/db.db" "SELECT 1"
      "/data/q.json" "/data/scrape.json" "/data/in.png" "/data/out.png"
      "/data/in.md" "/data/out.html" none none none none 85 none
      ⟨"/data/rows.csv", "status", .strV "active"⟩
      plainFetchEnv
      ⟨.ok (), .ok ([], []), .ok (), .ok ()⟩
      ⟨.ok "<html></html>", .ok "<html></html>", "t", .ok (), .ok ()⟩
      pngImgEnv
      ⟨.ok "# Title", fun _ _ => .ok "<h1>Title</h1>", .ok (), .ok ()⟩
      ⟨.ok ⟨["status"], [[.strV "active"]]⟩⟩).1
    "/data/out.bin" (by decide)

/-! ## Claim C3 -/

/-- C3: whenever a path argument fails the `B12` check, the task returns its
failure value with an empty effect trace — no delegate call, no filesystem
write. -/
theorem c3_guard_failure_blocks_all_effects
    (url sp db q outq out6 imgp outp mdp outm : String)
    (hd : Option (List (String × String))) (sel : Option String)
    (rs : Option (Nat × Nat)) (fmt : Option String) (qual : Nat)
    (ex : Option (List String))
    (e3 : B3Env) (e5 : B5Env) (e6 : B6Env) (e7 : B7Env) (e9 : B9Env) :
    (B12 (.str sp) = false → B3 url sp hd e3 = (false, [])) ∧
    ((B12 (.str db) && B12 (.str outq)) = false →
      B5 db q outq e5 = (none, [])) ∧
    (B12 (.str out6) = false → B6 url out6 sel e6 = (false, [])) ∧
    ((B12 (.str imgp) && B12 (.str outp)) = false →
      B7 imgp outp rs fmt qual e7 = (false, [])) ∧
    ((B12 (.str mdp) && B12 (.str outm)) = false →
      B9 mdp outm ex e9 = (false, [])) := by
  refine ⟨?_, ?_, ?_, ?_, ?_⟩ <;> intro h <;>
    simp [B3, B5, B6, B7, B9, h]

/-- C3 witness: with `/etc/passwd` as target, each task fails with no
effects at all, for oracles whose every delegate step would succeed. -/
theorem c3_guard_failure_blocks_all_effects_witness :
    B12 (.str "/etc/passwd") = false ∧
    B3 "http://api.example.com" "/etc/passwd" none plainFetchEnv =
      (false, []) ∧
    B5 "/etc/passwd" "SELECT 1" "/data/q.json" ⟨.ok (), .ok ([], []), .ok (), .ok ()⟩ =
      (none, []) := by
  have h12 : B12 (.str "/etc/passwd") = false := by decide
  have h := c3_guard_failure_blocks_all_effects
    "http://api.example.com" "/etc/passwd" "/etc/passwd" "SELECT 1"
    "/data/q.json" "/etc/passwd" "/etc/passwd" "/etc/passwd" "/etc/passwd"
    "/etc/passwd" none none none none 85 none
    plainFetchEnv ⟨.ok (), .ok ([], []), .ok (), .ok ()⟩
    ⟨.ok "x", .ok "x", "t", .ok (), .ok ()⟩
    ⟨.ok ⟨none⟩, .ok (), .ok ()⟩
    ⟨.ok "# Title", fun _ _ => .ok "<h1>Title</h1>", .ok (), .ok ()⟩
  exact ⟨h12, h.1 h12, h.2.1 (by simp [h12])⟩

/-! ## Claim C5 -/

/-- C5: `B5` picks sqlite exactly when the database path ends in `.db` (and
duckdb otherwise), and on success returns the fetched rows and writes a JSON
object with exactly the keys `query`, `results` and `column_names`. -/
theorem c5_b5_engine_and_output (db q out : String) (env : B5Env)
    (rows : List (List Scalar)) (cols : List String)
    (hg1 : B12 (.str db) = true) (hg2 : B12 (.str out) = true)
    (hc : env.connect = .ok ()) (he : env.exec0 = .ok (rows, cols))
    (hm : env.mkdirs = .ok ()) (hw : env.write = .ok ()) :
    (chooseEngine db = .sqlite ↔ strEndsWith db ".db" = true) ∧
    B5 db q out env =
      (some rows,
        [.dbConnect (chooseEngine db) db, .dbExecute q,
         .makedirs (dirname out),
         .fsWrite out (.json (b5Json q rows cols))]) ∧
    jsonObjKeys (b5Json q rows cols) =
      some ["query", "results", "column_names"] := by
  refine ⟨?_, ?_, rfl⟩
  · unfold chooseEngine
    by_cases h : strEndsWith db ".db" <;> simp [h]
  · simp [B5, hg1, hg2, hc, he, hm, hw, chooseEngine]

/-- C5 witness: the `SELECT 1 AS x` scenario against `/data/analytics.db`
returns rows `[[1]]`, with column names `["x"]` in the written JSON whose
keys are exactly `query`, `results`, `column_names`. -/
theorem c5_b5_engine_and_output_witness :
    chooseEngine "/data/analytics.db" = Engine.sqlite ∧
    (B5 "/data/analytics.db" "SELECT 1 AS x" "/data/out.json" queryEnv).1 =
      some [[Scalar.intV 1]] ∧
    jsonObjKeys (b5Json "SELECT 1 AS x" [[.intV 1]] ["x"]) =
      some ["query", "results", "column_names"] := by
  have h := c5_b5_engine_and_output "/data/analytics.db" "SELECT 1 AS x"
    "/data/out.json" queryEnv [[.intV 1]] ["x"]
    (by decide) (by decide) rfl rfl rfl rfl
  exact ⟨h.1.mpr (by decide), by rw [h.2.1], h.2.2⟩

/-! ## Claim C10 -/

/-- C10: `B5` returns `none` exactly when a path argument fails the guard or
one of the delegated steps raises; a successful query with zero rows returns
`some []`, which is distinct from `none`. -/
theorem c10_b5_none_iff (db q out : String) (env : B5Env) :
    ((B5 db q out env).1 = none ↔
      ((B12 (.str db) && B12 (.str out)) = false ∨ b5EnvFails env = true)) ∧
    ((B12 (.str db) && B12 (.str out)) = true →
      env.connect = .ok () → env.mkdirs = .ok () → env.write = .ok () →
      ∀ cols, env.exec0 = .ok ([], cols) →
        (B5 db q out env).1 = some [] ∧
        some ([] : List (List Scalar)) ≠ none) := by
  constructor
  · by_cases hg : (B12 (.str db) && B12 (.str out)) = true
    · cases hc : env.connect with
      | error e => simp [B5, hg, hc, b5EnvFails, Except.isOk, Except.toBool]
      | ok u =>
        cases he : env.exec0 with
        | error e => simp [B5, hg, hc, he, b5EnvFails, Except.isOk, Except.toBool]
        | ok rc =>
          obtain ⟨rows, cols⟩ := rc
          cases hm : env.mkdirs with
          | error e => simp [B5, hg, hc, he, hm, b5EnvFails, Except.isOk, Except.toBool]
          | ok u2 =>
            cases hw : env.write with
            | error e => simp [B5, hg, hc, he, hm, hw, b5EnvFails, Except.isOk, Except.toBool]
            | ok u3 => simp [B5, hg, hc, he, hm, hw, b5EnvFails, Except.isOk, Except.toBool]
    · have hg' : (B12 (.str db) && B12 (.str out)) = false := by
        simpa using hg
      simp [B5, hg']
  · intro hg hc hm hw cols he
    refine ⟨?_, by simp⟩
    simp [B5, hg, hc, hm, hw, he]

/-- C10 witness: a successful query with zero rows yields `some []`, not
`none`. -/
theorem c10_b5_none_iff_witness :
    (B5 "/data/analytics.db" "SELECT 1 AS x" "/data/empty.json"
        emptyQueryEnv).1 = some [] ∧
    some ([] : List (List Scalar)) ≠ none :=
  (c10_b5_none_iff "/data/analytics.db" "SELECT 1 AS x" "/data/empty.json"
    emptyQueryEnv).2 (by decide) rfl rfl rfl ["x"] rfl

/-! ## Claim C6 -/

/-- C6: `POST /filter_csv` answers 403 exactly when the guard rejects
`csv_path`, 400 with the error description for any other failure (load
error or missing column), and 200 with the row records on success. -/
theorem c6_b10_status_mapping (req : FilterRequest) (env : B10Env) :
    (B12 (.str req.csv_path) = false →
      (B10 req env).1 = .httpError 403 accessDeniedMsg) ∧
    (b10Status (B10 req env).1 = 403 → B12 (.str req.csv_path) = false) ∧
    (B12 (.str req.csv_path) = true →
      (∀ e, env.readCsv = .error e → (B10 req env).1 = .httpError 400 e) ∧
      (∀ df, env.readCsv = .ok df →
        (df.header.contains req.filter_column = false →
          (B10 req env).1 =
            .httpError 400 (keyErrorDetail req.filter_column)) ∧
        (df.header.contains req.filter_column = true →
          b10Status (B10 req env).1 = 200 ∧
          ∃ recs, (B10 req env).1 = .ok recs))) := by
  refine ⟨?_, ?_, ?_⟩
  · intro h
    simp [B10, h]
  · intro h
    by_cases hg : B12 (.str req.csv_path) = true
    · exfalso
      cases hr : env.readCsv with
      | error e => simp [B10, hg, hr, b10Status] at h
      | ok df =>
        by_cases hc : req.filter_column ∈ df.header <;>
          simp [B10, hg, hr, hc, b10Status] at h
    · simpa using hg
  · intro hg
    refine ⟨fun e hr => by simp [B10, hg, hr], fun df hr => ⟨?_, ?_⟩⟩
    · intro hc
      have hcm : req.filter_column ∉ df.header := by simpa using hc
      simp [B10, hg, hr, hcm]
    · intro hc
      have hcm : req.filter_column ∈ df.header := by simpa using hc
      exact ⟨by simp [B10, hg, hr, hcm, b10Status],
        (df.rows.filter (matchesFilter df.header req.filter_column
          req.filter_value)).map (fun r => df.header.zip r),
        by simp [B10, hg, hr, hcm]⟩

/-- C6 witness: a path outside `/data` is answered with 403, and the same
request against `/data/rows.csv` is answered with 200. -/
theorem c6_b10_status_mapping_witness :
    (B10 ⟨"/tmp/rows.csv", "status", .strV "active"⟩ statusCsvEnv).1 =
      .httpError 403 accessDeniedMsg ∧
    b10Status
      (B10 ⟨"/data/rows.csv", "status", .strV "active"⟩ statusCsvEnv).1 =
        200 := by
  have h1 := (c6_b10_status_mapping
    ⟨"/tmp/rows.csv", "status", .strV "active"⟩ statusCsvEnv).1 (by decide)
  have h2 := (((c6_b10_status_mapping
    ⟨"/data/rows.csv", "status", .strV "active"⟩ statusCsvEnv).2.2
      (by decide)).2 _ rfl).2 (by decide)
  exact ⟨h1, h2.1⟩

/-! ## Claim C7 -/

/-- C7: on success `B10` returns exactly the rows whose `filter_column`
value equals `filter_value` (in their original order), each rendered as the
header/value pairs in the original column order. -/
theorem c7_b10_filter_semantics (req : FilterRequest) (env : B10Env)
    (df : Csv) (hg : B12 (.str req.csv_path) = true)
    (hr : env.readCsv = .ok df)
    (hc : df.header.contains req.filter_column = true)
    (hrect : ∀ r ∈ df.rows, r.length = df.header.length) :
    (B10 req env).1 =
      .ok ((df.rows.filter
          (matchesFilter df.header req.filter_column req.filter_value)).map
        (fun r => df.header.zip r)) ∧
    (∀ rcd ∈ (df.rows.filter
          (matchesFilter df.header req.filter_column req.filter_value)).map
        (fun r => df.header.zip r), rcd.map Prod.fst = df.header) ∧
    ((df.rows.filter
          (matchesFilter df.header req.filter_column req.filter_value)).map
        (fun r => df.header.zip r)).map (fun rcd => rcd.map Prod.snd) =
      df.rows.filter (matchesFilter df.header req.filter_column
        req.filter_value) := by
  have hcm : req.filter_column ∈ df.header := by simpa using hc
  refine ⟨by simp [B10, hg, hr, hcm], ?_, ?_⟩
  · intro rcd hrcd
    simp only [List.mem_map] at hrcd
    obtain ⟨r, hrf, rfl⟩ := hrcd
    exact List.map_fst_zip _ _
      (le_of_eq (hrect r (List.mem_of_mem_filter hrf)).symm)
  · rw [List.map_map]
    have key : ∀ r ∈ df.rows.filter
        (matchesFilter df.header req.filter_column req.filter_value),
        ((fun rcd => List.map Prod.snd rcd) ∘ fun r => df.header.zip r) r =
          id r := by
      intro r hrf
      simp only [Function.comp_apply, id_eq]
      exact List.map_snd_zip _ _
        (le_of_eq (hrect r (List.mem_of_mem_filter hrf)))
    rw [List.map_congr_left key, List.map_id]

/-- C7 witness: filtering the three-row CSV on `status = "active"` returns
exactly the first and third rows as records in column order. -/
theorem c7_b10_filter_semantics_witness :
    (B10 ⟨"/data/rows.csv", "status", .strV "active"⟩ statusCsvEnv).1 =
      .ok [[("id", Scalar.intV 1), ("status", Scalar.strV "active")],
           [("id", Scalar.intV 3), ("status", Scalar.strV "active")]] := by
  have h := c7_b10_filter_semantics
    ⟨"/data/rows.csv", "status", .strV "active"⟩ statusCsvEnv
    ⟨["id", "status"],
     [[.intV 1, .strV "active"], [.intV 2, .strV "inactive"],
      [.intV 3, .strV "active"]]⟩
    (by decide) rfl (by decide) (by decide)
  rw [h.1]
  rfl

/-! ## Claim C8 -/

/-- C8: rendering the minimal document `# Title` succeeds, returns true, and
writes the fixed document shell containing `<h1>Title</h1>`, with the
`<title>` derived from the markdown file's basename. -/
theorem c8_b9_minimal_roundtrip (md_path output_path : String)
    (extras : Option (List String)) (env : B9Env)
    (h1 : B12 (.str md_path) = true) (h2 : B12 (.str output_path) = true)
    (hr : env.readRes = .ok "# Title")
    (hmd : env.render (extras.getD []) "# Title" = .ok "<h1>Title</h1>")
    (hmk : env.mkdirs = .ok ()) (hw : env.write = .ok ()) :
    B9 md_path output_path extras env =
      (true, [.fsRead md_path, .mdRender "# Title",
        .makedirs (dirname output_path),
        .fsWrite output_path
          (.text (fullHtml (basename md_path) "<h1>Title</h1>"))]) ∧
    (∃ a b, fullHtml (basename md_path) "<h1>Title</h1>" =
        a ++ "<h1>Title</h1>" ++ b) ∧
    (∃ a b, fullHtml (basename md_path) "<h1>Title</h1>" =
        a ++ ("<title>Converted from " ++ basename md_path ++ "</title>")
          ++ b) := by
  refine ⟨by simp [B9, h1, h2, hr, hmd, hmk, hw], ?_, ?_⟩
  · exact ⟨htmlPre ++ titleOpen ++ basename md_path ++ titleClose ++ htmlMid,
      htmlPost, by simp [fullHtml, String.append_assoc]⟩
  · exact ⟨htmlPre, htmlMid ++ "<h1>Title</h1>" ++ htmlPost, by
      simp [fullHtml, titleOpen, titleClose, String.append_assoc]⟩

/-- C8 witness: the scenario run on `/data/notes.md`. -/
theorem c8_b9_minimal_roundtrip_witness :
    (B9 "/data/notes.md" "/data/notes.html" none titleMdEnv).1 = true ∧
    (∃ a b, fullHtml (basename "/data/notes.md") "<h1>Title</h1>" =
        a ++ "<h1>Title</h1>" ++ b) := by
  have h := c8_b9_minimal_roundtrip "/data/notes.md" "/data/notes.html" none
    titleMdEnv (by decide) (by decide) rfl rfl rfl rfl
  exact ⟨by rw [h.1], h.2.1⟩

/-! ## Claim C9 -/

/-- C9: the claimed success path is unreachable in the code.  With the
PIL import commented out (line 6), `Image.open` raises `NameError` on every
call, the broad `except` catches it, and `B7` returns `False` with an empty
effect trace on every input — even when both paths pass the guard and a
decodable image exists, it never decodes, never resizes, never writes the
re-encoded bytes to `output_path`, and never returns `True`. -/
theorem c9_b7_never_succeeds (image_path output_path : String)
    (resize : Option (Nat × Nat)) (format : Option String) (quality : Nat)
    (env : B7Env) :
    B7 image_path output_path resize format quality env = (false, []) := by
  unfold B7 imageOpenRes
  split <;> rfl

end TasksB
